import Mathlib

/-!
Shallow embedding of the email-to-Telegram notifier
(`src/db.py`, `src/parser.py`, `src/imap_watcher.py`, `src/bot.py`).

The SQLite store is modelled as lists of typed rows, one list per table of
`EmailDatabase.init_database`; SQL statements become list operations with the
same observable behaviour.  `AUTOINCREMENT` row ids are modelled with explicit
`next…Id` counters (SQLite rowids start at 1).  SHA-256 in
`generate_email_hash` is modelled as the digested content string itself: the
code treats the digest as a deterministic injective fingerprint of
`message_id|sender|subject`, and only equality of digests is ever observed.
-/

namespace EmailNotifier

/-- A row of the `emails` table (db.py, init_database). -/
structure EmailRow where
  id : Nat
  message_id : String
  email_account : String
  sender : String
  subject : String
  body_preview : String
  received_date : Nat
  email_hash : String
deriving DecidableEq

/-- A row of the `groups` table.  `filter_accounts` is the JSON column after
parsing: `none` models SQL NULL, `some l` models the JSON array `l` (the write
paths `add_group` / `update_group_filter` only ever store NULL or
`json.dumps` of a list). -/
structure GroupRow where
  id : Nat
  chat_id : Int
  chat_title : String
  is_active : Bool
  filter_accounts : Option (List String)
  added_by : Int
deriving DecidableEq

/-- A row of the `email_notifications` table. -/
structure NotificationRow where
  id : Nat
  email_id : Nat
  group_id : Nat
  telegram_message_id : Nat
  is_handled : Bool
  handled_at : Option Nat
  handled_by : Option Int
deriving DecidableEq

/-- The whole store. -/
structure DB where
  emails : List EmailRow
  groups : List GroupRow
  notifications : List NotificationRow
  nextEmailId : Nat
  nextGroupId : Nat
  nextNotificationId : Nat
deriving DecidableEq

/-- The freshly initialized store (rowids start at 1). -/
def DB.empty : DB :=
  { emails := [], groups := [], notifications := [],
    nextEmailId := 1, nextGroupId := 1, nextNotificationId := 1 }

/-- `EmailDatabase.generate_email_hash`: digest of
`message_id|sender|subject` (SHA-256 modelled as the content itself). -/
def generateEmailHash (message_id sender subject : String) : String :=
  message_id ++ "|" ++ sender ++ "|" ++ subject

/-- `EmailDatabase.email_exists`:
`SELECT COUNT(*) FROM emails WHERE email_hash = ? OR message_id = ?` is
positive. -/
def emailExists (db : DB) (message_id sender subject : String) : Bool :=
  let email_hash := generateEmailHash message_id sender subject
  db.emails.any fun e => e.email_hash == email_hash || e.message_id == message_id

/-- `EmailDatabase.add_email`: look up an existing row by `email_hash`; if
present return its id, otherwise insert a new row and return its rowid. -/
def addEmail (db : DB) (message_id email_account sender subject body_preview : String)
    (received_date : Nat) : Option Nat × DB :=
  let email_hash := generateEmailHash message_id sender subject
  match db.emails.find? (fun e => e.email_hash == email_hash) with
  | some e => (some e.id, db)
  | none =>
    let row : EmailRow :=
      { id := db.nextEmailId, message_id := message_id, email_account := email_account,
        sender := sender, subject := subject, body_preview := body_preview,
        received_date := received_date, email_hash := email_hash }
    (some db.nextEmailId,
     { db with emails := db.emails ++ [row], nextEmailId := db.nextEmailId + 1 })

/-- `EmailDatabase.add_group`:
`INSERT OR REPLACE INTO groups (chat_id, chat_title, added_by, filter_accounts)`.
`chat_id` is UNIQUE, so OR REPLACE deletes any row with this `chat_id` and
inserts a fresh row with a new rowid; `is_active` takes its column default 1.
`filter_json` is NULL when the argument is `None` or an empty list
(Python truthiness of `filter_accounts`). -/
def addGroup (db : DB) (chat_id : Int) (chat_title : String) (added_by : Int)
    (filter_accounts : Option (List String)) : Option Nat × DB :=
  let filter_json : Option (List String) :=
    match filter_accounts with
    | some l => if l.isEmpty then none else some l
    | none => none
  let row : GroupRow :=
    { id := db.nextGroupId, chat_id := chat_id, chat_title := chat_title,
      is_active := true, filter_accounts := filter_json, added_by := added_by }
  (some db.nextGroupId,
   { db with groups := (db.groups.filter fun g => g.chat_id != chat_id) ++ [row],
             nextGroupId := db.nextGroupId + 1 })

/-- `EmailDatabase.remove_group`: `UPDATE groups SET is_active = 0 WHERE chat_id = ?`,
returning `rowcount > 0`. -/
def removeGroup (db : DB) (chat_id : Int) : Bool × DB :=
  let hit := db.groups.any fun g => g.chat_id == chat_id
  (hit,
   { db with groups := db.groups.map fun g =>
       if g.chat_id == chat_id then { g with is_active := false } else g })

/-- `EmailDatabase.get_active_groups`: `SELECT * FROM groups WHERE is_active = 1`. -/
def getActiveGroups (db : DB) : List GroupRow :=
  db.groups.filter fun g => g.is_active

/-- `EmailDatabase.update_group_filter`: set `filter_accounts` for the rows with
this `chat_id`, returning `rowcount > 0`. -/
def updateGroupFilter (db : DB) (chat_id : Int) (filter_accounts : Option (List String)) :
    Bool × DB :=
  let filter_json : Option (List String) :=
    match filter_accounts with
    | some l => if l.isEmpty then none else some l
    | none => none
  let hit := db.groups.any fun g => g.chat_id == chat_id
  (hit,
   { db with groups := db.groups.map fun g =>
       if g.chat_id == chat_id then { g with filter_accounts := filter_json } else g })

/-- `EmailDatabase.add_notification`:
`INSERT OR IGNORE INTO email_notifications (email_id, group_id, telegram_message_id)`
under `UNIQUE(email_id, group_id)`.  After OR IGNORE skips the insert,
`cursor.lastrowid` is stale; that case is modelled as `none`. -/
def addNotification (db : DB) (email_id group_id telegram_message_id : Nat) :
    Option Nat × DB :=
  if db.notifications.any (fun n => n.email_id == email_id && n.group_id == group_id) then
    (none, db)
  else
    let row : NotificationRow :=
      { id := db.nextNotificationId, email_id := email_id, group_id := group_id,
        telegram_message_id := telegram_message_id, is_handled := false,
        handled_at := none, handled_by := none }
    (some db.nextNotificationId,
     { db with notifications := db.notifications ++ [row],
               nextNotificationId := db.nextNotificationId + 1 })

/-- The row predicate of `mark_notification_handled`'s WHERE clause:
`telegram_message_id = ? AND is_handled = 0`. -/
def notifPending (telegram_message_id : Nat) (n : NotificationRow) : Bool :=
  n.telegram_message_id == telegram_message_id && !n.is_handled

/-- `EmailDatabase.mark_notification_handled`:
`UPDATE email_notifications SET is_handled = 1, handled_at = CURRENT_TIMESTAMP,
handled_by = ? WHERE telegram_message_id = ? AND is_handled = 0`,
returning `rowcount > 0`.  `now` stands for CURRENT_TIMESTAMP. -/
def markNotificationHandled (db : DB) (telegram_message_id : Nat) (handled_by : Int)
    (now : Nat) : Bool × DB :=
  let changed := db.notifications.countP (notifPending telegram_message_id)
  (decide (0 < changed),
   { db with notifications := db.notifications.map fun n =>
       if notifPending telegram_message_id n then
         { n with is_handled := true, handled_at := some now, handled_by := some handled_by }
       else n })

/-- `EmailDatabase.email_sent_to_group`:
`SELECT COUNT(*) FROM email_notifications WHERE email_id = ? AND group_id = ?`
is positive. -/
def emailSentToGroup (db : DB) (email_id group_id : Nat) : Bool :=
  db.notifications.any fun n => n.email_id == email_id && n.group_id == group_id

/-!  Schema constraints of `init_database`, as predicates on table contents.
A state is accepted by the schema iff these hold: rowids are unique
(PRIMARY KEY); `groups.chat_id` is declared UNIQUE; `email_notifications`
declares `UNIQUE(email_id, group_id)`.  The `emails` table declares no
uniqueness beyond the PRIMARY KEY — `idx_email_hash` and `idx_message_id`
are plain (non-unique) indexes. -/

/-- Constraints the `emails` table enforces on its rows. -/
def emailsSchemaOK (rows : List EmailRow) : Prop :=
  (rows.map fun e => e.id).Nodup

instance : DecidablePred emailsSchemaOK := fun rows => by
  unfold emailsSchemaOK; infer_instance

/-- Constraints the `groups` table enforces on its rows. -/
def groupsSchemaOK (rows : List GroupRow) : Prop :=
  (rows.map fun g => g.id).Nodup ∧ (rows.map fun g => g.chat_id).Nodup

instance : DecidablePred groupsSchemaOK := fun rows => by
  unfold groupsSchemaOK; infer_instance

/-- Constraints the `email_notifications` table enforces on its rows. -/
def notificationsSchemaOK (rows : List NotificationRow) : Prop :=
  (rows.map fun n => n.id).Nodup ∧ (rows.map fun n => (n.email_id, n.group_id)).Nodup

instance : DecidablePred notificationsSchemaOK := fun rows => by
  unfold notificationsSchemaOK; infer_instance

/-- A store state the schema accepts. -/
def schemaOK (db : DB) : Prop :=
  emailsSchemaOK db.emails ∧ groupsSchemaOK db.groups ∧ notificationsSchemaOK db.notifications

/-!  `src/parser.py` — `EmailParser._is_spam` and `EmailParser._create_preview`.
Python `str.lower()` is modelled with `String.toLower` (ASCII case folding —
all configured keywords and patterns are ASCII).  The few regular expressions
the source uses are compiled by hand into a tiny backtracking matcher:
`auto.?reply`-style patterns are literal runs with single optional
any-characters (`.` matches any character except a newline, as in Python
without DOTALL). -/

/-- Does `p` occur at the start of `s`? -/
def listStartsWith : List Char → List Char → Bool
  | [], _ => true
  | _ :: _, [] => false
  | p :: ps, c :: cs => p == c && listStartsWith ps cs

/-- Does `pat` occur as a contiguous run somewhere in `s`?  (Python `in`.) -/
def listContainsRun (pat : List Char) : List Char → Bool
  | [] => listStartsWith pat []
  | c :: cs => listStartsWith pat (c :: cs) || listContainsRun pat cs

/-- Python `pat in s` on strings. -/
def strContainsRun (s pat : String) : Bool :=
  listContainsRun pat.data s.data

/-- One element of a hand-compiled regex: a literal character, or `.?`
(an optional single non-newline character). -/
inductive RElem where
  | lit (c : Char)
  | anyOpt
deriving DecidableEq

/-- Match a pattern against the beginning of the text (backtracking on `.?`). -/
def reMatchHere : List RElem → List Char → Bool
  | [], _ => true
  | RElem.lit _ :: _, [] => false
  | RElem.lit p :: ps, c :: cs => p == c && reMatchHere ps cs
  | RElem.anyOpt :: ps, [] => reMatchHere ps []
  | RElem.anyOpt :: ps, c :: cs =>
      reMatchHere ps (c :: cs) || (c != '\n' && reMatchHere ps cs)

/-- Python `re.search`: does the pattern match at some position? -/
def reSearch (ps : List RElem) : List Char → Bool
  | [] => reMatchHere ps []
  | c :: cs => reMatchHere ps (c :: cs) || reSearch ps cs

/-- Literal characters of a string as regex elements. -/
def litsOf (s : String) : List RElem :=
  s.data.map RElem.lit

/-- A pattern of the shape `a.?b`. -/
def optGapPat (a b : String) : List RElem :=
  litsOf a ++ [RElem.anyOpt] ++ litsOf b

/-- The `auto_reply_patterns` list of `_is_spam`. -/
def autoReplyPatterns : List (List RElem) :=
  [optGapPat "auto" "reply",
   optGapPat "automatic" "reply",
   litsOf "out" ++ [RElem.anyOpt] ++ litsOf "of" ++ [RElem.anyOpt] ++ litsOf "office",
   optGapPat "vacation" "reply",
   litsOf "away" ++ [RElem.anyOpt] ++ litsOf "from" ++ [RElem.anyOpt] ++ litsOf "office",
   litsOf "be" ++ [RElem.anyOpt] ++ litsOf "back" ++ [RElem.anyOpt] ++ litsOf "on"]

/-- The alternatives of the no-reply sender pattern
`no.?reply|donotreply|postmaster|mailer.?daemon`. -/
def noReplyPatterns : List (List RElem) :=
  [optGapPat "no" "reply",
   litsOf "donotreply",
   litsOf "postmaster",
   optGapPat "mailer" "daemon"]

/-- Python `str.lower()`: characterwise case folding (ASCII — every
configured keyword and pattern is ASCII). -/
def pyLower (s : String) : String :=
  String.mk (s.data.map Char.toLower)

/-- `EmailParser._is_spam` with the keyword list already lower-cased
(as `EmailParser.__init__` stores it): keyword containment over the
lower-cased `sender subject body` concatenation, then the auto-reply
patterns, then the no-reply sender patterns; otherwise not spam. -/
def isSpam (spam_keywords : List String) (sender subject body : String) : Bool :=
  let combined_text := pyLower (sender ++ " " ++ subject ++ " " ++ body)
  (spam_keywords.any fun kw => strContainsRun combined_text kw) ||
  (autoReplyPatterns.any fun p => reSearch p combined_text.data) ||
  (noReplyPatterns.any fun p => reSearch p (pyLower sender).data)

/-- Python `\S` (approximated by non-whitespace; all inputs of interest are
ASCII, where the two coincide). -/
def nonSpace (c : Char) : Bool :=
  !c.isWhitespace

/-- Length of a match of one URL scheme alternative (`scheme` then `\S+`)
at the head of the text, if any. -/
def urlSchemeLen (scheme : String) (cs : List Char) : Option Nat :=
  if listStartsWith scheme.data cs then
    if ((cs.drop scheme.length).takeWhile nonSpace).length = 0 then none
    else some (scheme.length + ((cs.drop scheme.length).takeWhile nonSpace).length)
  else none

/-- Length of the match of `https?://\S+` at the head of the text, if any
(the regex engine tries the greedy `s?` alternative first). -/
def urlMatchLen (cs : List Char) : Option Nat :=
  match urlSchemeLen "https://" cs with
  | some n => some n
  | none => urlSchemeLen "http://" cs

theorem urlSchemeLen_pos {scheme : String} {cs : List Char} {n : Nat}
    (h : urlSchemeLen scheme cs = some n) : 0 < n := by
  unfold urlSchemeLen at h
  split at h
  · split at h
    · simp at h
    · rename_i hk
      injection h with h
      omega
  · simp at h

theorem urlMatchLen_pos {cs : List Char} {n : Nat} (h : urlMatchLen cs = some n) : 0 < n := by
  unfold urlMatchLen at h
  split at h
  · rename_i heq
    injection h with h
    subst h
    exact urlSchemeLen_pos heq
  · exact urlSchemeLen_pos h

/-- Fuel-driven scan for `re.sub(r'https?://\S+', '[URL]', text)`: at each
position, replace a leftmost match with the placeholder and resume after it,
otherwise keep the character.  Each step consumes at least one character, so
`fuel = length` always suffices (`replaceUrls` below). -/
def replaceUrlsFuel : Nat → List Char → List Char
  | _, [] => []
  | 0, c :: rest => c :: rest
  | fuel + 1, c :: rest =>
    match urlMatchLen (c :: rest) with
    | some n => "[URL]".data ++ replaceUrlsFuel fuel ((c :: rest).drop n)
    | none => c :: replaceUrlsFuel fuel rest

/-- `re.sub(r'https?://\S+', '[URL]', text)`. -/
def replaceUrls (cs : List Char) : List Char :=
  replaceUrlsFuel cs.length cs

/-- Python list slicing `l[:k]` for a possibly negative bound `k`. -/
def pySliceTo (k : Int) (l : List Char) : List Char :=
  if 0 ≤ k then l.take k.toNat else l.take (l.length - (-k).toNat)

/-- `EmailParser._create_preview`: empty text yields the literal
`No content` marker; otherwise URLs are replaced by `[URL]` and the result is
truncated to `text[:max_preview_length - 3] + "..."` when longer than
`max_preview_length`. -/
def createPreview (max_preview_length : Nat) (text : String) : String :=
  if text.isEmpty then "No content"
  else
    let t := String.mk (replaceUrls text.data)
    if max_preview_length < t.length then
      String.mk (pySliceTo ((max_preview_length : Int) - 3) t.data) ++ "..."
    else t

/-!  `src/imap_watcher.py` — `EmailWatcher.connect` and
`EmailWatcher.check_new_emails`, restricted to a connected session.
`self.last_seen_uids` is the watermark; the server's answer to
`search(['ALL'])` is the `current` identifier set; `fetch` is the per-UID
fetch oracle (`none` models a fetch failure or a UID missing from the fetch
response — both are skipped by the source).  The source accumulates emitted
messages in a Python list whose order mirrors set-iteration order, which is
unspecified; only the emitted identifier set is modelled. -/

/-- `EmailWatcher.connect`: after login and folder selection the watermark is
set to the set of identifiers currently on the server
(`self.last_seen_uids = set(messages)`). -/
def connectWatermark (serverUids : Finset Nat) : Finset Nat :=
  serverUids

/-- `EmailWatcher.check_new_emails` on a connected session: returns the set of
emitted identifiers and the new watermark.  `new_uids = current - last_seen`;
when it is nonempty each new UID whose fetch succeeds is emitted and the
watermark becomes `current`; when it is empty nothing is emitted and the
watermark is left untouched. -/
def checkNewEmails (fetch : Nat → Option String) (current last_seen : Finset Nat) :
    Finset Nat × Finset Nat :=
  let new_uids := current \ last_seen
  if new_uids = ∅ then (∅, last_seen)
  else (new_uids.filter (fun uid => (fetch uid).isSome = true), current)

/-- A run of successive checks against a sequence of server states: unions the
emissions and threads the watermark. -/
def runChecks (fetch : Nat → Option String) : List (Finset Nat) → Finset Nat →
    Finset Nat × Finset Nat
  | [], last_seen => (∅, last_seen)
  | current :: rest, last_seen =>
    let step := checkNewEmails fetch current last_seen
    let tail := runChecks fetch rest step.2
    (step.1 ∪ tail.1, tail.2)

/-!  `src/bot.py` — the dispatcher (`TelegramBot.process_email_queue` body,
`should_send_to_group`, `send_email_notification`) and the subscription
command (`subscribe_command`).  The external Telegram send is an oracle
`send : Int → Option Nat` from chat id to the platform message id of the sent
message (`none` models a send failure, in which case
`send_email_notification` returns `None` before reaching
`add_notification`). -/

/-- The output of `EmailParser.parse_email` consumed by the queue processor. -/
structure ParsedEmail where
  message_id : String
  sender : String
  subject : String
  body_preview : String
  received_date : Nat
  is_spam : Bool
deriving DecidableEq

/-- `TelegramBot.should_send_to_group`: no filter configured (NULL) means send
to all; otherwise send iff the account label is in the parsed filter list. -/
def shouldSendToGroup (group_info : GroupRow) (email_account_label : String) : Bool :=
  match group_info.filter_accounts with
  | none => true
  | some filters => filters.contains email_account_label

/-- `TelegramBot.send_email_notification`: send to the chat; on success record
the notification row and return the platform message id, on failure return
`none` without touching the store. -/
def sendEmailNotification (send : Int → Option Nat) (db : DB) (email_id group_id : Nat)
    (chat_id : Int) : Option Nat × DB :=
  match send chat_id with
  | none => (none, db)
  | some tmid =>
    let step := addNotification db email_id group_id tmid
    (some tmid, step.2)

/-- The per-group loop of `process_email_queue`: for each active group, if the
filter admits the account label and no notification row exists yet for
(email, group), send and record. -/
def deliverToGroups (send : Int → Option Nat) (email_id : Nat) (label : String) :
    List GroupRow → DB → DB
  | [], db => db
  | g :: gs, db =>
    let db2 :=
      if shouldSendToGroup g label then
        if emailSentToGroup db email_id g.id then db
        else (sendEmailNotification send db email_id g.id g.chat_id).2
      else db
    deliverToGroups send email_id label gs db2

/-- One iteration of `TelegramBot.process_email_queue` on a parsed candidate:
drop spam; drop candidates `email_exists` flags as duplicates; otherwise
`add_email` and fan out to every active group. -/
def processEmail (send : Int → Option Nat) (db : DB) (account_label account_email : String)
    (parsed : ParsedEmail) : DB :=
  if parsed.is_spam then db
  else if emailExists db parsed.message_id parsed.sender parsed.subject then db
  else
    let step := addEmail db parsed.message_id
      (account_label ++ " (" ++ account_email ++ ")")
      parsed.sender parsed.subject parsed.body_preview parsed.received_date
    match step.1 with
    | none => step.2
    | some email_id => deliverToGroups send email_id account_label (getActiveGroups step.2) step.2

/-- `TelegramBot.subscribe_command` (store effect): `add_group` with the chat
id, title and acting user, and no filter argument (Python default `None`). -/
def subscribeCommand (db : DB) (chat_id : Int) (chat_title : String) (user_id : Int) :
    Option Nat × DB :=
  addGroup db chat_id chat_title user_id none

/-- Does `s` end with `pat`?  (Used to state the ellipsis property.) -/
def strEndsWith (s pat : String) : Bool :=
  listStartsWith pat.data.reverse s.data.reverse

/-- The store state after `add_email` inserts a fresh row for `parsed` (the
insert branch of `addEmail`, with the account column formatted as
`process_email_queue` formats it).  Used to state what a first pass of the
dispatcher does. -/
def insertEmailState (db : DB) (lbl em : String) (parsed : ParsedEmail) : DB :=
  { db with
    emails := db.emails ++
      [{ id := db.nextEmailId, message_id := parsed.message_id,
         email_account := lbl ++ " (" ++ em ++ ")", sender := parsed.sender,
         subject := parsed.subject, body_preview := parsed.body_preview,
         received_date := parsed.received_date,
         email_hash := generateEmailHash parsed.message_id parsed.sender parsed.subject }],
    nextEmailId := db.nextEmailId + 1 }

/-- A store with two pending notification rows in different groups that share
one `telegram_message_id` (Telegram message ids are only unique per chat).
Used to exhibit the unscoped matching of `mark_notification_handled`. -/
def dbTwoPending : DB :=
  { emails := [], groups := [],
    notifications :=
      [{ id := 1, email_id := 1, group_id := 1, telegram_message_id := 7,
         is_handled := false, handled_at := none, handled_by := none },
       { id := 2, email_id := 2, group_id := 2, telegram_message_id := 7,
         is_handled := false, handled_at := none, handled_by := none }],
    nextEmailId := 3, nextGroupId := 3, nextNotificationId := 3 }

/-! ## Supporting lemmas -/

theorem listStartsWith_append_self (a b : List Char) : listStartsWith a (a ++ b) = true := by
  induction a with
  | nil => rfl
  | cons c cs ih => simp [listStartsWith, ih]

theorem strEndsWith_append (s pat : String) : strEndsWith (s ++ pat) pat = true := by
  unfold strEndsWith
  rw [String.data_append, List.reverse_append]
  exact listStartsWith_append_self _ _

theorem urlMatchLen_cons_ne_h {c : Char} (hc : ¬c = 'h') (rest : List Char) :
    urlMatchLen (c :: rest) = none := by
  have hb : ('h' == c) = false := by
    simp only [beq_eq_false_iff_ne, ne_eq]
    exact fun e => hc e.symm
  have h1 : listStartsWith "https://".data (c :: rest) = false := by
    show ('h' == c && listStartsWith "ttps://".data rest) = false
    simp [hb]
  have h2 : listStartsWith "http://".data (c :: rest) = false := by
    show ('h' == c && listStartsWith "ttp://".data rest) = false
    simp [hb]
  simp [urlMatchLen, urlSchemeLen, h1, h2]

theorem replaceUrlsFuel_no_h :
    ∀ (fuel : Nat) (l : List Char), (∀ c ∈ l, ¬c = 'h') → replaceUrlsFuel fuel l = l := by
  intro fuel
  induction fuel with
  | zero => intro l _; cases l <;> rfl
  | succ n ih =>
    intro l hl
    cases l with
    | nil => rfl
    | cons c rest =>
      have hc : ¬c = 'h' := hl c (List.mem_cons_self c rest)
      simp only [replaceUrlsFuel, urlMatchLen_cons_ne_h hc]
      rw [ih rest fun d hd => hl d (List.mem_cons_of_mem c hd)]

theorem replaceUrls_no_h (l : List Char) (hl : ∀ c ∈ l, ¬c = 'h') : replaceUrls l = l :=
  replaceUrlsFuel_no_h l.length l hl

theorem createPreview_of_long {maxLen : Nat} {text : String}
    (hne : text.isEmpty = false) (h3 : 3 ≤ maxLen)
    (hlen : maxLen < (replaceUrls text.data).length) :
    (createPreview maxLen text).length = maxLen ∧
      strEndsWith (createPreview maxLen text) "..." = true := by
  have hlen' : maxLen < (String.mk (replaceUrls text.data)).length := hlen
  rw [createPreview, if_neg (by simp [hne]), if_pos hlen']
  constructor
  · rw [String.length_append]
    have hk : (0 : Int) ≤ (maxLen : Int) - 3 := by omega
    have : pySliceTo ((maxLen : Int) - 3) (String.mk (replaceUrls text.data)).data
        = (replaceUrls text.data).take (maxLen - 3) := by
      rw [pySliceTo, if_pos hk]
      congr 1
      omega
    rw [this]
    show ((replaceUrls text.data).take (maxLen - 3)).length + 3 = maxLen
    rw [List.length_take]
    omega
  · exact strEndsWith_append _ _

/-! ## Claim theorems -/

/-- C5: for every active Destination and every candidate Message the
eligibility check `should_send_to_group` returns true when no filter is
configured, and otherwise returns true iff the Message's account label is in
the Destination's filter set; `get_active_groups` returns exactly the active
rows, and a Destination filtered to `sales` passes only the `sales` label. -/
theorem filter_correctness :
    (∀ (g : GroupRow) (label : String), g.filter_accounts = none →
      shouldSendToGroup g label = true) ∧
    (∀ (g : GroupRow) (label : String) (fs : List String), g.filter_accounts = some fs →
      (shouldSendToGroup g label = true ↔ label ∈ fs)) ∧
    (∀ (db : DB) (g : GroupRow), g ∈ getActiveGroups db ↔ g ∈ db.groups ∧ g.is_active = true) ∧
    (∀ g : GroupRow, g.filter_accounts = some ["sales"] →
      shouldSendToGroup g "sales" = true ∧ shouldSendToGroup g "hr" = false) := by
  refine ⟨?_, ?_, ?_, ?_⟩
  · intro g label h
    simp [shouldSendToGroup, h]
  · intro g label fs h
    simp only [shouldSendToGroup, h]
    exact List.elem_iff
  · intro db g
    simp [getActiveGroups, List.mem_filter]
  · intro g h
    simp [shouldSendToGroup, h]

/-- Witness for C5 at concrete destinations. -/
theorem filter_correctness_witness :
    shouldSendToGroup
      { id := 1, chat_id := 5, chat_title := "t", is_active := true,
        filter_accounts := none, added_by := 2 } "hr" = true ∧
    shouldSendToGroup
      { id := 2, chat_id := 6, chat_title := "t", is_active := true,
        filter_accounts := some ["sales"], added_by := 2 } "sales" = true :=
  ⟨filter_correctness.1 _ "hr" rfl, (filter_correctness.2.2.2 _ rfl).1⟩

/-- C6: `_is_spam` marks a record spam iff a configured keyword occurs in the
lower-cased concatenation of sender, subject and body, or an auto-reply
pattern matches, or the sender matches a no-reply/postmaster/mailer-daemon
pattern; sender `mailer-daemon@x.com` is spam, a body containing
`out of office` is spam, and an input matching nothing is not spam.  The Lean
function is total, modelling that classification never raises. -/
theorem spam_classification :
    (∀ (spam_keywords : List String) (sender subject body : String),
      isSpam spam_keywords sender subject body = true ↔
        ((∃ kw ∈ spam_keywords,
            strContainsRun (pyLower (sender ++ " " ++ subject ++ " " ++ body)) kw = true) ∨
         (∃ p ∈ autoReplyPatterns,
            reSearch p (pyLower (sender ++ " " ++ subject ++ " " ++ body)).data = true) ∨
         (∃ p ∈ noReplyPatterns, reSearch p (pyLower sender).data = true))) ∧
    isSpam [] "mailer-daemon@x.com" "Hello" "body text" = true ∧
    isSpam [] "Alice <alice@example.com>" "Re: plans" "I am Out of Office until Monday" = true ∧
    isSpam ["unsubscribe"] "Bob <bob@shop.example>" "Sale" "Click here to UNSUBSCRIBE now" = true ∧
    isSpam [] "Alice <alice@example.com>" "Re: plans" "see you at noon" = false := by
  refine ⟨?_, by decide, by decide, by decide, by decide⟩
  intro kws sender subject body
  simp [isSpam, List.any_eq_true, Bool.or_eq_true, or_assoc]

/-- C7: `_create_preview` maps an empty body to the literal `No content`
marker; otherwise it first replaces URLs with the placeholder and, when the
result exceeds the configured maximum, truncates so the preview is exactly
the maximum length and ends with the ellipsis; a 10000-character body with
maximum 600 yields exactly 600 characters ending in the ellipsis. -/
theorem preview_truncation :
    (∀ maxLen : Nat, createPreview maxLen "" = "No content") ∧
    (∀ (maxLen : Nat) (text : String), text.isEmpty = false → 3 ≤ maxLen →
      maxLen < (replaceUrls text.data).length →
      (createPreview maxLen text).length = maxLen ∧
        strEndsWith (createPreview maxLen text) "..." = true) ∧
    ((createPreview 600 (String.mk (List.replicate 10000 'a'))).length = 600 ∧
      strEndsWith (createPreview 600 (String.mk (List.replicate 10000 'a'))) "..." = true) ∧
    createPreview 600 "see http://x.com/a now" = "see [URL] now" := by
  refine ⟨fun maxLen => rfl, fun maxLen text hne h3 hlen => createPreview_of_long hne h3 hlen,
    ?_, by decide⟩
  have hno : ∀ c ∈ List.replicate 10000 'a', ¬c = 'h' := by
    intro c hc
    rw [List.eq_of_mem_replicate hc]
    decide
  have hrep : replaceUrls (String.mk (List.replicate 10000 'a')).data
      = List.replicate 10000 'a' := replaceUrls_no_h _ hno
  have hne : (String.mk (List.replicate 10000 'a')).isEmpty = false := by
    have hs : ¬String.mk (List.replicate 10000 'a') = "" := by
      intro h
      have h2 : (List.replicate 10000 'a').length = ([] : List Char).length :=
        congrArg List.length (congrArg String.data h)
      rw [List.length_replicate] at h2
      exact absurd h2 (by decide)
    exact Bool.eq_false_iff.2 fun hT => hs ((String.isEmpty_iff _).1 hT)
  exact createPreview_of_long hne (by omega) (by rw [hrep, List.length_replicate]; omega)

/-- Witness for C7's truncation clause at a concrete body and maximum. -/
theorem preview_truncation_witness :
    (createPreview 10 "abcdefghijklmno").length = 10 ∧
      strEndsWith (createPreview 10 "abcdefghijklmno") "..." = true :=
  preview_truncation.2.1 10 "abcdefghijklmno" (by decide) (by decide) (by decide)

/-- C3 counterexample: the schema of `init_database` does NOT enforce
uniqueness of the fingerprint column — a store state holding two distinct
`emails` rows with the same `email_hash` (and even the same `message_id`)
satisfies every constraint the schema declares, because `idx_email_hash` and
`idx_message_id` are plain non-unique indexes and `emails` has no UNIQUE
clause. -/
theorem schema_accepts_duplicate_fingerprint :
    schemaOK
      { emails :=
          [{ id := 1, message_id := "m1", email_account := "a", sender := "alice",
             subject := "s", body_preview := "p", received_date := 0, email_hash := "f" },
           { id := 2, message_id := "m1", email_account := "a", sender := "alice",
             subject := "s", body_preview := "p", received_date := 0, email_hash := "f" }],
        groups := [], notifications := [],
        nextEmailId := 3, nextGroupId := 1, nextNotificationId := 1 } ∧
    ({ id := 1, message_id := "m1", email_account := "a", sender := "alice",
       subject := "s", body_preview := "p", received_date := 0,
       email_hash := "f" } : EmailRow).email_hash =
      ({ id := 2, message_id := "m1", email_account := "a", sender := "alice",
         subject := "s", body_preview := "p", received_date := 0,
         email_hash := "f" } : EmailRow).email_hash ∧
    ({ id := 1, message_id := "m1", email_account := "a", sender := "alice",
       subject := "s", body_preview := "p", received_date := 0,
       email_hash := "f" } : EmailRow) ≠
      { id := 2, message_id := "m1", email_account := "a", sender := "alice",
        subject := "s", body_preview := "p", received_date := 0, email_hash := "f" } := by
  refine ⟨⟨?_, ?_, ?_⟩, rfl, by decide⟩ <;> decide

/-- C3 amended: the schema enforces uniqueness of the destination chat
identifier (`groups.chat_id UNIQUE`) and of the (message, destination) pair
(`UNIQUE(email_id, group_id)` on `email_notifications`), but not of the
message fingerprint column (`emails.email_hash` has only a non-unique index;
fingerprint dedup is an application-level check in `add_email`). -/
theorem schema_uniqueness_amended :
    ∀ db : DB, schemaOK db →
      (∀ g1 ∈ db.groups, ∀ g2 ∈ db.groups, g1.chat_id = g2.chat_id → g1 = g2) ∧
      (∀ n1 ∈ db.notifications, ∀ n2 ∈ db.notifications,
        n1.email_id = n2.email_id → n1.group_id = n2.group_id → n1 = n2) := by
  intro db hdb
  obtain ⟨-, ⟨-, hchat⟩, ⟨-, hpair⟩⟩ := hdb
  refine ⟨fun g1 h1 g2 h2 he => List.inj_on_of_nodup_map hchat h1 h2 he,
    fun n1 h1 n2 h2 he hg => List.inj_on_of_nodup_map hpair h1 h2 ?_⟩
  simp [he, hg]

/-- Witness for C3's amended statement at a concrete store state. -/
theorem schema_uniqueness_amended_witness :
    ({ id := 1, chat_id := 100, chat_title := "t", is_active := true,
       filter_accounts := none, added_by := 5 } : GroupRow) =
      { id := 1, chat_id := 100, chat_title := "t", is_active := true,
        filter_accounts := none, added_by := 5 } :=
  (schema_uniqueness_amended
      { emails := [], notifications := [],
        groups :=
          [{ id := 1, chat_id := 100, chat_title := "t", is_active := true,
             filter_accounts := none, added_by := 5 },
           { id := 2, chat_id := 200, chat_title := "u", is_active := true,
             filter_accounts := none, added_by := 5 }],
        nextEmailId := 1, nextGroupId := 3, nextNotificationId := 1 }
      (by refine ⟨?_, ⟨?_, ?_⟩, ?_, ?_⟩ <;> decide)).1
    _ (by decide) _ (by decide) rfl

/-- C4 counterexample: a check in which the set-difference is empty does not
advance the watermark to the current identifier set — with watermark 1, 2 and
current set 1 (UID 2 expunged), `check_new_emails` takes the
`if new_uids:` branch as false and leaves `last_seen_uids` at 1, 2,
not at the current set 1. -/
theorem watermark_stays_on_empty_diff :
    (checkNewEmails (fun _ => some "m") ({1} : Finset Nat) ({1, 2} : Finset Nat)).2
        = ({1, 2} : Finset Nat) ∧
      (checkNewEmails (fun _ => some "m") ({1} : Finset Nat) ({1, 2} : Finset Nat)).2
        ≠ ({1} : Finset Nat) := by
  constructor <;> decide

/-- C4 amended: `connect` captures the identifier set present at connect time
as the watermark; every check emits exactly the fetch-successful identifiers
of the set-difference current minus watermark; identifiers present at connect
time and still present at each check are never emitted by that connection;
after a check that found at least one new identifier the watermark becomes
the current set, and after a check that found none it is unchanged. -/
theorem watermark_amended :
    (∀ (fetch : Nat → Option String) (current last_seen : Finset Nat),
      (checkNewEmails fetch current last_seen).1
        = (current \ last_seen).filter fun uid => (fetch uid).isSome = true) ∧
    (∀ (fetch : Nat → Option String) (current last_seen : Finset Nat),
      current \ last_seen ≠ ∅ → (checkNewEmails fetch current last_seen).2 = current) ∧
    (∀ (fetch : Nat → Option String) (current last_seen : Finset Nat),
      current \ last_seen = ∅ → (checkNewEmails fetch current last_seen).2 = last_seen) ∧
    (∀ (fetch : Nat → Option String) (states : List (Finset Nat)) (initial : Finset Nat)
        (uid : Nat), uid ∈ initial → (∀ C ∈ states, uid ∈ C) →
      uid ∉ (runChecks fetch states (connectWatermark initial)).1) ∧
    (∀ (fetch : Nat → Option String) (current last_seen : Finset Nat) (uid : Nat),
      fetch uid = none → uid ∉ (checkNewEmails fetch current last_seen).1) := by
  have hemit : ∀ (fetch : Nat → Option String) (current last_seen : Finset Nat),
      (checkNewEmails fetch current last_seen).1
        = (current \ last_seen).filter fun uid => (fetch uid).isSome = true := by
    intro fetch current last_seen
    rw [checkNewEmails]
    split
    · rename_i hd
      rw [hd, Finset.filter_empty]
    · rfl
  have hstep : ∀ (fetch : Nat → Option String) (current W : Finset Nat) (uid : Nat),
      uid ∈ W → uid ∈ current →
      uid ∉ (checkNewEmails fetch current W).1 ∧ uid ∈ (checkNewEmails fetch current W).2 := by
    intro fetch current W uid hW hC
    constructor
    · rw [hemit]
      intro hmem
      exact (Finset.mem_sdiff.1 (Finset.mem_filter.1 hmem).1).2 hW
    · rw [checkNewEmails]
      split
      · exact hW
      · exact hC
  have hrun : ∀ (fetch : Nat → Option String) (states : List (Finset Nat)) (W : Finset Nat)
      (uid : Nat), uid ∈ W → (∀ C ∈ states, uid ∈ C) →
      uid ∉ (runChecks fetch states W).1 ∧ uid ∈ (runChecks fetch states W).2 := by
    intro fetch states
    induction states with
    | nil =>
      intro W uid hW _
      exact ⟨Finset.not_mem_empty uid, hW⟩
    | cons C rest ih =>
      intro W uid hW hall
      have h1 := hstep fetch C W uid hW (hall C (List.mem_cons_self C rest))
      have h2 := ih _ uid h1.2 fun D hD => hall D (List.mem_cons_of_mem C hD)
      refine ⟨?_, h2.2⟩
      rw [runChecks]
      intro hu
      rcases Finset.mem_union.1 hu with hu | hu
      · exact h1.1 hu
      · exact h2.1 hu
  refine ⟨hemit, ?_, ?_, ?_, ?_⟩
  · intro fetch current last_seen hd
    rw [checkNewEmails, if_neg hd]
  · intro fetch current last_seen hd
    rw [checkNewEmails, if_pos hd]
  · intro fetch states initial uid h0 hall
    exact (hrun fetch states (connectWatermark initial) uid h0 hall).1
  · intro fetch current last_seen uid hf hmem
    rw [hemit] at hmem
    have := (Finset.mem_filter.1 hmem).2
    rw [hf] at this
    simp at this

/-- Witness for C4's amended statement at concrete identifier sets. -/
theorem watermark_amended_witness :
    (checkNewEmails (fun _ => some "m") ({1, 2, 3} : Finset Nat) ({1, 2} : Finset Nat)).2
        = ({1, 2, 3} : Finset Nat) ∧
      (1 : Nat) ∉ (runChecks (fun _ => some "m")
        [({1, 2} : Finset Nat), ({1, 2, 3} : Finset Nat)] (connectWatermark {1})).1 :=
  ⟨watermark_amended.2.1 _ _ _ (by decide),
   watermark_amended.2.2.2.1 _ _ _ _ (by decide) (by decide)⟩

theorem mark_result_true_iff (db : DB) (t : Nat) (u : Int) (now : Nat) :
    (markNotificationHandled db t u now).1 = true ↔
      ∃ m ∈ db.notifications, notifPending t m = true := by
  have h : (markNotificationHandled db t u now).1
      = decide (0 < db.notifications.countP (notifPending t)) := rfl
  rw [h, decide_eq_true_iff, List.countP_pos_iff]

theorem mark_notifications_eq (db : DB) (t : Nat) (u : Int) (now : Nat) :
    (markNotificationHandled db t u now).2.notifications
      = db.notifications.map fun m =>
          if notifPending t m then
            { m with is_handled := true, handled_at := some now, handled_by := some u }
          else m :=
  rfl

theorem mark_mem_updated {db : DB} {t : Nat} (u : Int) (now : Nat) {n : NotificationRow}
    (hn : n ∈ db.notifications) (hp : notifPending t n = true) :
    { n with is_handled := true, handled_at := some now, handled_by := some u }
      ∈ (markNotificationHandled db t u now).2.notifications := by
  rw [mark_notifications_eq]
  refine List.mem_map.2 ⟨n, hn, ?_⟩
  simp [hp]

theorem mark_mem_other {db : DB} {t : Nat} (u : Int) (now : Nat) {n : NotificationRow}
    (hn : n ∈ db.notifications) (hp : notifPending t n = false) :
    n ∈ (markNotificationHandled db t u now).2.notifications := by
  rw [mark_notifications_eq]
  refine List.mem_map.2 ⟨n, hn, ?_⟩
  simp [hp]

theorem mark_pending_absent (db : DB) (t : Nat) (u : Int) (now : Nat) :
    ∀ m ∈ (markNotificationHandled db t u now).2.notifications, notifPending t m = false := by
  intro m hm
  have hm' : m ∈ db.notifications.map
      (fun m => if notifPending t m then
          { m with is_handled := true, handled_at := some now, handled_by := some u }
        else m) := hm
  rcases List.mem_map.1 hm' with ⟨a, -, rfl⟩
  by_cases hp : notifPending t a = true
  · rw [if_pos hp]
    simp [notifPending]
  · rw [if_neg hp]
    exact Bool.eq_false_iff.2 hp

theorem mark_no_pending_noop (db : DB) (t : Nat) (u : Int) (now : Nat)
    (h : ∀ m ∈ db.notifications, notifPending t m = false) :
    markNotificationHandled db t u now = (false, db) := by
  have hc : db.notifications.countP (notifPending t) = 0 :=
    List.countP_eq_zero.2 fun a ha => by rw [h a ha]; exact Bool.false_ne_true
  have hmap : db.notifications.map
      (fun m => if notifPending t m then
          { m with is_handled := true, handled_at := some now, handled_by := some u }
        else m) = db.notifications := by
    rw [List.map_congr_left (g := id)
      (fun a ha => by rw [if_neg (by rw [h a ha]; exact Bool.false_ne_true)]; rfl)]
    exact List.map_id _
  show (decide (0 < db.notifications.countP (notifPending t)),
      { db with notifications := db.notifications.map _ }) = (false, db)
  rw [hc, hmap]
  rfl

/-- C8: `mark_notification_handled` matches rows by `telegram_message_id`
alone — no destination or message scoping: success iff some row with that id
is pending; every pending row with that id (in any group) becomes handled by
the acting user with the timestamp; all other rows are unchanged; one call on
a store with two pending rows in different groups sharing the id marks both. -/
theorem mark_handled_matches_by_telegram_id :
    (∀ (db : DB) (t : Nat) (u : Int) (now : Nat),
      (markNotificationHandled db t u now).1 = true ↔
        ∃ n ∈ db.notifications, n.telegram_message_id = t ∧ n.is_handled = false) ∧
    (∀ (db : DB) (t : Nat) (u : Int) (now : Nat), ∀ n ∈ db.notifications,
      n.telegram_message_id = t → n.is_handled = false →
        { n with is_handled := true, handled_at := some now, handled_by := some u }
          ∈ (markNotificationHandled db t u now).2.notifications) ∧
    (∀ (db : DB) (t : Nat) (u : Int) (now : Nat), ∀ n ∈ db.notifications,
      ¬(n.telegram_message_id = t ∧ n.is_handled = false) →
        n ∈ (markNotificationHandled db t u now).2.notifications) ∧
    ((markNotificationHandled dbTwoPending 7 9 1).1 = true ∧
      ((markNotificationHandled dbTwoPending 7 9 1).2.notifications.all
        fun n => n.is_handled) = true) := by
  refine ⟨?_, ?_, ?_, by decide, by decide⟩
  · intro db t u now
    rw [mark_result_true_iff]
    simp [notifPending]
  · intro db t u now n hn ht hh
    exact mark_mem_updated u now hn (by simp [notifPending, ht, hh])
  · intro db t u now n hn hno
    refine mark_mem_other u now hn ?_
    rw [Bool.eq_false_iff]
    intro hp
    exact hno (by simpa [notifPending] using hp)

/-- Witness for C8 at a concrete store, telegram message id and user. -/
theorem mark_handled_matches_by_telegram_id_witness :
    ({ id := 1, email_id := 1, group_id := 1, telegram_message_id := 7,
       is_handled := true, handled_at := some 1, handled_by := some 9 } : NotificationRow)
      ∈ (markNotificationHandled dbTwoPending 7 9 1).2.notifications :=
  mark_handled_matches_by_telegram_id.2.1 dbTwoPending 7 9 1
    { id := 1, email_id := 1, group_id := 1, telegram_message_id := 7,
      is_handled := false, handled_at := none, handled_by := none }
    (by decide) rfl rfl

/-- C1: for a pending Delivery row, the first acknowledgment succeeds and
records the acting user and timestamp, and a subsequent acknowledgment with
the same platform message id returns the distinct failure status (`False`,
not an exception) and changes nothing — so in either serialization of two
acknowledgment attempts exactly one succeeds and one observes
already-handled. -/
theorem ack_race_single_winner :
    ∀ (db : DB) (n : NotificationRow) (t : Nat) (u1 u2 : Int) (now1 now2 : Nat),
      n ∈ db.notifications → n.telegram_message_id = t → n.is_handled = false →
      (markNotificationHandled db t u1 now1).1 = true ∧
      { n with is_handled := true, handled_at := some now1, handled_by := some u1 }
        ∈ (markNotificationHandled db t u1 now1).2.notifications ∧
      (markNotificationHandled (markNotificationHandled db t u1 now1).2 t u2 now2).1
        = false ∧
      (markNotificationHandled (markNotificationHandled db t u1 now1).2 t u2 now2).2
        = (markNotificationHandled db t u1 now1).2 := by
  intro db n t u1 u2 now1 now2 hn ht hh
  have hp : notifPending t n = true := by simp [notifPending, ht, hh]
  have hnoop := mark_no_pending_noop (markNotificationHandled db t u1 now1).2 t u2 now2
    (mark_pending_absent db t u1 now1)
  refine ⟨(mark_result_true_iff db t u1 now1).2 ⟨n, hn, hp⟩,
    mark_mem_updated u1 now1 hn hp, ?_, ?_⟩
  · rw [hnoop]
  · rw [hnoop]

/-- Witness for C1 at a concrete pending Delivery and two acting users. -/
theorem ack_race_single_winner_witness :
    (markNotificationHandled dbTwoPending 7 11 2).1 = true ∧
      (markNotificationHandled (markNotificationHandled dbTwoPending 7 11 2).2 7 12 3).1
        = false :=
  ⟨(ack_race_single_winner dbTwoPending
      { id := 1, email_id := 1, group_id := 1, telegram_message_id := 7,
        is_handled := false, handled_at := none, handled_by := none }
      7 11 12 2 3 (by decide) rfl rfl).1,
   (ack_race_single_winner dbTwoPending
      { id := 1, email_id := 1, group_id := 1, telegram_message_id := 7,
        is_handled := false, handled_at := none, handled_by := none }
      7 11 12 2 3 (by decide) rfl rfl).2.2.1⟩

/-- C9: `email_exists` reports a duplicate whenever any stored email matches
the fingerprint OR shares just the protocol `message_id` (even when sender or
subject, and therefore the fingerprint, differ), and the dispatcher drops
such a candidate without inserting a Message or creating any Delivery. -/
theorem duplicate_by_message_id_alone :
    (∀ (db : DB) (mid s subj : String),
      emailExists db mid s subj = true ↔
        ∃ e ∈ db.emails, e.email_hash = generateEmailHash mid s subj ∨ e.message_id = mid) ∧
    (∀ (send : Int → Option Nat) (db : DB) (lbl em : String) (parsed : ParsedEmail),
      parsed.is_spam = false →
      (∃ e ∈ db.emails, e.message_id = parsed.message_id) →
      processEmail send db lbl em parsed = db) := by
  constructor
  · intro db mid s subj
    simp [emailExists, List.any_eq_true, Bool.or_eq_true]
  · intro send db lbl em parsed hspam hdup
    obtain ⟨e, he, hm⟩ := hdup
    have hex : emailExists db parsed.message_id parsed.sender parsed.subject = true := by
      simp only [emailExists, List.any_eq_true, Bool.or_eq_true, beq_iff_eq]
      exact ⟨e, he, Or.inr hm⟩
    simp [processEmail, hspam, hex]

/-- Witness for C9: a candidate sharing only the message id with a stored row
of a different sender (hence a different fingerprint) is dropped whole. -/
theorem duplicate_by_message_id_alone_witness :
    processEmail (fun _ => some 1)
      { emails :=
          [{ id := 1, message_id := "m1", email_account := "a", sender := "alice",
             subject := "s", body_preview := "p", received_date := 0,
             email_hash := "m1|alice|s" }],
        groups :=
          [{ id := 1, chat_id := 100, chat_title := "t", is_active := true,
             filter_accounts := none, added_by := 5 }],
        notifications := [], nextEmailId := 2, nextGroupId := 2, nextNotificationId := 1 }
      "hr" "hr@x"
      { message_id := "m1", sender := "bob", subject := "s2", body_preview := "p2",
        received_date := 1, is_spam := false }
      = { emails :=
            [{ id := 1, message_id := "m1", email_account := "a", sender := "alice",
               subject := "s", body_preview := "p", received_date := 0,
               email_hash := "m1|alice|s" }],
          groups :=
            [{ id := 1, chat_id := 100, chat_title := "t", is_active := true,
               filter_accounts := none, added_by := 5 }],
          notifications := [], nextEmailId := 2, nextGroupId := 2, nextNotificationId := 1 } :=
  duplicate_by_message_id_alone.2 _ _ "hr" "hr@x" _ rfl
    ⟨{ id := 1, message_id := "m1", email_account := "a", sender := "alice",
       subject := "s", body_preview := "p", received_date := 0,
       email_hash := "m1|alice|s" }, by decide, rfl⟩

/-- C10: subscribing a chat that already has a Destination row replaces the
whole row (`INSERT OR REPLACE` keyed on the UNIQUE `chat_id`): after a
re-subscribe the row for that chat has no filter (the subscribe command
passes `None`) and a fresh internal id, and the old row — with whatever
filter it carried — is gone. -/
theorem resubscribe_resets_filter :
    ∀ (db : DB) (g : GroupRow) (cid : Int) (title : String) (user : Int),
      g ∈ db.groups → g.chat_id = cid →
      (∀ g2 ∈ db.groups, g2.id < db.nextGroupId) →
      (∃ g' ∈ (subscribeCommand db cid title user).2.groups, g'.chat_id = cid) ∧
      (∀ g' ∈ (subscribeCommand db cid title user).2.groups, g'.chat_id = cid →
        g'.filter_accounts = none ∧ g'.id = db.nextGroupId ∧ ¬g'.id = g.id) ∧
      g ∉ (subscribeCommand db cid title user).2.groups := by
  intro db g cid title user hg hchat hlt
  have hG : (subscribeCommand db cid title user).2.groups
      = (db.groups.filter fun h => h.chat_id != cid) ++
        [{ id := db.nextGroupId, chat_id := cid, chat_title := title, is_active := true,
           filter_accounts := none, added_by := user }] := rfl
  refine ⟨?_, ?_, ?_⟩
  · exact ⟨_, by rw [hG]; exact List.mem_append_right _ (List.mem_singleton_self _), rfl⟩
  · intro g' hg' hc
    rw [hG] at hg'
    rcases List.mem_append.1 hg' with h | h
    · exact absurd hc (by simpa using (List.mem_filter.1 h).2)
    · rw [List.mem_singleton.1 h]
      refine ⟨rfl, rfl, fun e => ?_⟩
      have h2 := hlt g hg
      simp only at e
      omega
  · intro hgin
    rw [hG] at hgin
    rcases List.mem_append.1 hgin with h | h
    · exact absurd hchat (by simpa using (List.mem_filter.1 h).2)
    · have := congrArg GroupRow.id (List.mem_singleton.1 h)
      have h2 := hlt g hg
      simp only at this
      omega

/-- Witness for C10: re-subscribing a chat whose row carries a sales filter
deletes that row. -/
theorem resubscribe_resets_filter_witness :
    ({ id := 1, chat_id := 100, chat_title := "t", is_active := true,
       filter_accounts := some ["sales"], added_by := 5 } : GroupRow)
      ∉ (subscribeCommand
          { emails := [], notifications := [],
            groups :=
              [{ id := 1, chat_id := 100, chat_title := "t", is_active := true,
                 filter_accounts := some ["sales"], added_by := 5 }],
            nextEmailId := 1, nextGroupId := 2, nextNotificationId := 1 }
          100 "t2" 9).2.groups :=
  (resubscribe_resets_filter _
    { id := 1, chat_id := 100, chat_title := "t", is_active := true,
      filter_accounts := some ["sales"], added_by := 5 }
    100 "t2" 9 (by decide) rfl (by decide)).2.2

theorem addNotification_emails (db : DB) (e g t : Nat) :
    (addNotification db e g t).2.emails = db.emails := by
  unfold addNotification
  split <;> rfl

theorem addNotification_nextEmailId (db : DB) (e g t : Nat) :
    (addNotification db e g t).2.nextEmailId = db.nextEmailId := by
  unfold addNotification
  split <;> rfl

theorem sendEmailNotification_emails (send : Int → Option Nat) (db : DB) (e g : Nat)
    (cid : Int) : (sendEmailNotification send db e g cid).2.emails = db.emails := by
  unfold sendEmailNotification
  cases hs : send cid
  · rfl
  · exact addNotification_emails db e g _

theorem deliverToGroups_emails (send : Int → Option Nat) (eid : Nat) (lbl : String) :
    ∀ (gs : List GroupRow) (db : DB),
      (deliverToGroups send eid lbl gs db).emails = db.emails := by
  intro gs
  induction gs with
  | nil => intro db; rfl
  | cons g rest ih =>
    intro db
    rw [deliverToGroups, ih]
    by_cases hf : shouldSendToGroup g lbl = true
    · rw [if_pos hf]
      by_cases hsent : emailSentToGroup db eid g.id = true
      · rw [if_pos hsent]
      · rw [if_neg hsent]
        exact sendEmailNotification_emails send db eid g.id g.chat_id
    · rw [if_neg hf]

theorem deliverToGroups_count_le (send : Int → Option Nat) (eid : Nat) (lbl : String) :
    ∀ (gs : List GroupRow) (db : DB),
      (∀ gid, db.notifications.countP
        (fun n => n.email_id == eid && n.group_id == gid) ≤ 1) →
      ∀ gid, (deliverToGroups send eid lbl gs db).notifications.countP
        (fun n => n.email_id == eid && n.group_id == gid) ≤ 1 := by
  intro gs
  induction gs with
  | nil => intro db hinv gid; exact hinv gid
  | cons g rest ih =>
    intro db hinv gid
    rw [deliverToGroups]
    apply ih
    intro gid2
    by_cases hf : shouldSendToGroup g lbl = true
    · rw [if_pos hf]
      by_cases hsent : emailSentToGroup db eid g.id = true
      · rw [if_pos hsent]
        exact hinv gid2
      · rw [if_neg hsent]
        have hany : db.notifications.any
            (fun n => n.email_id == eid && n.group_id == g.id) = false :=
          Bool.eq_false_iff.2 hsent
        rw [sendEmailNotification]
        cases hs : send g.chat_id with
        | none => exact hinv gid2
        | some tmid =>
          dsimp only
          rw [addNotification, if_neg (by rw [hany]; exact Bool.false_ne_true)]
          dsimp only
          rw [List.countP_append, List.countP_cons, List.countP_nil]
          by_cases hg : g.id = gid2
          · subst hg
            have hzero : db.notifications.countP
                (fun n => n.email_id == eid && n.group_id == g.id) = 0 :=
              List.countP_eq_zero.2 fun n hn hp => (List.any_eq_false.1 hany) n hn hp
            rw [hzero]
            simp
          · simpa [hg] using hinv gid2
    · rw [if_neg hf]
      exact hinv gid2

theorem processEmail_fresh (send : Int → Option Nat) (db : DB) (lbl em : String)
    (parsed : ParsedEmail) (hspam : parsed.is_spam = false)
    (hex : emailExists db parsed.message_id parsed.sender parsed.subject = false) :
    processEmail send db lbl em parsed
      = deliverToGroups send db.nextEmailId lbl
          (getActiveGroups (insertEmailState db lbl em parsed))
          (insertEmailState db lbl em parsed) := by
  have hall := List.any_eq_false.1 hex
  have hfind : db.emails.find?
      (fun e => e.email_hash ==
        generateEmailHash parsed.message_id parsed.sender parsed.subject) = none :=
    List.find?_eq_none.2 fun e he hp =>
      hall e he (by rw [hp]; rfl)
  rw [processEmail, if_neg (by rw [hspam]; exact Bool.false_ne_true),
    if_neg (by rw [hex]; exact Bool.false_ne_true), addEmail, hfind]
  rfl

/-- C2: `add_email` is idempotent on the (message_id, sender, subject) triple
— a second call returns the identity of the existing row and leaves the store
unchanged — and running the dispatcher twice on the same parsed message
yields the store of the first run, exactly one Message row with the
fingerprint, and at most one Delivery row per destination. -/
theorem idempotent_ingestion :
    (∀ (db : DB) (mid acc acc2 s subj bp bp2 : String) (rd rd2 : Nat),
      (addEmail (addEmail db mid acc s subj bp rd).2 mid acc2 s subj bp2 rd2).1
          = (addEmail db mid acc s subj bp rd).1 ∧
        (addEmail (addEmail db mid acc s subj bp rd).2 mid acc2 s subj bp2 rd2).2
          = (addEmail db mid acc s subj bp rd).2) ∧
    (∀ (send send2 : Int → Option Nat) (db : DB) (lbl em : String) (parsed : ParsedEmail),
      parsed.is_spam = false →
      emailExists db parsed.message_id parsed.sender parsed.subject = false →
      (∀ n ∈ db.notifications, ¬n.email_id = db.nextEmailId) →
      processEmail send2 (processEmail send db lbl em parsed) lbl em parsed
          = processEmail send db lbl em parsed ∧
        (processEmail send db lbl em parsed).emails.countP
          (fun e => e.email_hash ==
            generateEmailHash parsed.message_id parsed.sender parsed.subject) = 1 ∧
        ∀ gid, (processEmail send db lbl em parsed).notifications.countP
          (fun n => n.email_id == db.nextEmailId && n.group_id == gid) ≤ 1) := by
  constructor
  · intro db mid acc acc2 s subj bp bp2 rd rd2
    cases hfind : db.emails.find? (fun e => e.email_hash == generateEmailHash mid s subj) with
    | some e =>
      have h1 : addEmail db mid acc s subj bp rd = (some e.id, db) := by
        rw [addEmail, hfind]
      have h2 : addEmail db mid acc2 s subj bp2 rd2 = (some e.id, db) := by
        rw [addEmail, hfind]
      rw [h1]
      exact ⟨congrArg Prod.fst h2, congrArg Prod.snd h2⟩
    | none =>
      have h1 : addEmail db mid acc s subj bp rd
          = (some db.nextEmailId,
              { db with
                emails := db.emails ++
                  [{ id := db.nextEmailId, message_id := mid, email_account := acc,
                     sender := s, subject := subj, body_preview := bp,
                     received_date := rd, email_hash := generateEmailHash mid s subj }],
                nextEmailId := db.nextEmailId + 1 }) := by
        rw [addEmail, hfind]
      have hfind2 : (db.emails ++
          [({ id := db.nextEmailId, message_id := mid, email_account := acc,
              sender := s, subject := subj, body_preview := bp,
              received_date := rd,
              email_hash := generateEmailHash mid s subj } : EmailRow)]).find?
            (fun e => e.email_hash == generateEmailHash mid s subj)
          = some
              { id := db.nextEmailId, message_id := mid, email_account := acc,
                sender := s, subject := subj, body_preview := bp,
                received_date := rd, email_hash := generateEmailHash mid s subj } := by
        rw [List.find?_append, hfind, Option.none_or]
        apply List.find?_cons_of_pos
        simp
      rw [h1]
      dsimp only
      rw [addEmail, hfind2]
      exact ⟨rfl, rfl⟩
  · intro send send2 db lbl em parsed hspam hex hfresh
    have h1 := processEmail_fresh send db lbl em parsed hspam hex
    have hem : (processEmail send db lbl em parsed).emails
        = db.emails ++
          [{ id := db.nextEmailId, message_id := parsed.message_id,
             email_account := lbl ++ " (" ++ em ++ ")", sender := parsed.sender,
             subject := parsed.subject, body_preview := parsed.body_preview,
             received_date := parsed.received_date,
             email_hash := generateEmailHash parsed.message_id parsed.sender
               parsed.subject }] := by
      rw [h1, deliverToGroups_emails]
      rfl
    refine ⟨?_, ?_, ?_⟩
    · have hex1 : emailExists (processEmail send db lbl em parsed)
          parsed.message_id parsed.sender parsed.subject = true := by
        simp only [emailExists, List.any_eq_true]
        refine ⟨_, by rw [hem]; exact List.mem_append_right _ (List.mem_singleton_self _), ?_⟩
        simp
      rw [processEmail, if_neg (by rw [hspam]; exact Bool.false_ne_true), if_pos hex1]
    · rw [hem, List.countP_append, List.countP_cons, List.countP_nil]
      have hzero : db.emails.countP
          (fun e => e.email_hash ==
            generateEmailHash parsed.message_id parsed.sender parsed.subject) = 0 :=
        List.countP_eq_zero.2 fun e he hp =>
          (List.any_eq_false.1 hex) e he (by rw [hp]; rfl)
      rw [hzero]
      simp
    · intro gid
      rw [h1]
      apply deliverToGroups_count_le
      intro gid2
      have hzero : db.notifications.countP
          (fun n => n.email_id == db.nextEmailId && n.group_id == gid2) = 0 := by
        refine List.countP_eq_zero.2 fun n hn hp => ?_
        have hne := hfresh n hn
        simp [hne] at hp
      show db.notifications.countP
        (fun n => n.email_id == db.nextEmailId && n.group_id == gid2) ≤ 1
      rw [hzero]
      omega

/-- Witness for C2 at a concrete store, message and destinations. -/
theorem idempotent_ingestion_witness :
    processEmail (fun c => some (c.toNat + 1))
        (processEmail (fun c => some (c.toNat + 1))
          { emails := [], notifications := [],
            groups :=
              [{ id := 1, chat_id := 100, chat_title := "g1", is_active := true,
                 filter_accounts := none, added_by := 7 },
               { id := 2, chat_id := 200, chat_title := "g2", is_active := true,
                 filter_accounts := some ["sales"], added_by := 7 }],
            nextEmailId := 1, nextGroupId := 3, nextNotificationId := 1 }
          "hr" "hr@x"
          { message_id := "m1", sender := "alice", subject := "s",
            body_preview := "p", received_date := 5, is_spam := false })
        "hr" "hr@x"
        { message_id := "m1", sender := "alice", subject := "s",
          body_preview := "p", received_date := 5, is_spam := false }
      = processEmail (fun c => some (c.toNat + 1))
          { emails := [], notifications := [],
            groups :=
              [{ id := 1, chat_id := 100, chat_title := "g1", is_active := true,
                 filter_accounts := none, added_by := 7 },
               { id := 2, chat_id := 200, chat_title := "g2", is_active := true,
                 filter_accounts := some ["sales"], added_by := 7 }],
            nextEmailId := 1, nextGroupId := 3, nextNotificationId := 1 }
          "hr" "hr@x"
          { message_id := "m1", sender := "alice", subject := "s",
            body_preview := "p", received_date := 5, is_spam := false } :=
  (idempotent_ingestion.2 _ _ _ "hr" "hr@x" _ rfl (by decide)
    (by intro n hn; simp at hn)).1

end EmailNotifier
